import Mathlib

/-!
Shallow embedding of `src/include/gemini/core/util/perf_utils.h`
(namespace `gemini::perf`): a small instrumentation layer with

* `IOBytesDelta` — a begin/end pair of `uint64_t` counter snapshots,
* `IOScope` — RAII scope around one `uint64_t *counter_`,
* `MultiIOScope` — RAII scope around a `std::function<uint64_t()>` reader,
* `ScopedTimer` and `StageTimer` — wall-clock timers,
* `ms_since` and `print_line` — clock and locked-console helpers.

Modelling conventions:

* `uint64_t` values are `Nat`; truncation/wraparound is applied by
  `u64` exactly where the C++ type system applies it (here, only the
  subtraction `end - begin` in `IOBytesDelta::bytes`).
* The build switch `CHEETAH_ENABLE_PERF` becomes an explicit `enabled :
  Bool` parameter on every function whose body contains the `#if`.
* External mutable state (the counter behind `counter_`, the value a
  `reader_()` call yields, the clock instant `Clock::now()`) is passed
  in at each call site as an argument; each operation additionally
  reports how many times it read its measurement source / the clock, so
  that "reads at most twice" and "never reads the clock" are theorems
  about the embedding rather than conventions.
* Console output is a `List Write` of events recording the target
  stream (`std::cout` vs `std::cerr`), whether the write happened while
  holding `cout_mutex` (a `lock_guard` in the source), and the text.
* `double` values live in `ℚ`.  Every `double` the code manipulates is
  either compared/divided by powers of two (exact in binary floating
  point, so `ℚ` is faithful) or immediately handed to `operator<<` for
  rendering; that rendering is abstracted as a parameter
  `fmt : ℚ → String`, mirroring that iostream, not this header, formats
  the number.  Clock instants are `ℚ` milliseconds.
-/

namespace GeminiPerf

/-- `2 ^ 64`, the modulus of `uint64_t` arithmetic. -/
def u64Mod : Nat := 18446744073709551616

/-- Truncation of a natural number to `uint64_t`. -/
def u64 (n : Nat) : Nat := n % u64Mod

/-- Which console stream a write targets (`std::cout` or `std::cerr`). -/
inductive Stream where
  | cout
  | cerr
deriving DecidableEq, Repr

/-- One console write event: target stream, whether it was performed
while holding `cout_mutex`, and the text written. -/
structure Write where
  stream : Stream
  locked : Bool
  text : String
deriving DecidableEq, Repr

/-- `struct IOBytesDelta { uint64_t begin = 0; uint64_t end = 0; ... }`.
`begin`/`end` are Lean keywords, hence the trailing underscores. -/
structure IOBytesDelta where
  begin_ : Nat := 0
  end_ : Nat := 0
deriving DecidableEq, Repr

/-- `uint64_t bytes() const { return end - begin; }` — subtraction at
type `uint64_t`, i.e. modulo `2 ^ 64`. -/
def IOBytesDelta.bytes (d : IOBytesDelta) : Nat :=
  (u64 d.end_ + u64Mod - u64 d.begin_) % u64Mod

/-- `double mib() const { return double(bytes()) / 1024.0 / 1024.0; }`.
Division of a binary floating-point number by `1024.0` only decrements
the exponent (exactly, no rounding, no underflow for these magnitudes),
so the two successive divisions are modelled exactly in `ℚ`. -/
def IOBytesDelta.mib (d : IOBytesDelta) : ℚ :=
  (d.bytes : ℚ) / 1024 / 1024

/-- `ms_since(start)`: under `CHEETAH_ENABLE_PERF` it reads the clock
once (`Clock::now()`, supplied here as `now`) and returns the elapsed
milliseconds; otherwise it returns `0.0` without reading the clock.
Result: (milliseconds, number of clock reads). -/
def ms_since (enabled : Bool) (now start : ℚ) : ℚ × Nat :=
  if enabled then (now - start, 1) else (0, 0)

/-- `print_line(s)`: under `CHEETAH_ENABLE_PERF` it writes `s` to
`std::cout` while holding `cout_mutex`; otherwise it does nothing. -/
def print_line (enabled : Bool) (s : String) : List Write :=
  if enabled then [⟨Stream.cout, true, s⟩] else []

/-- State of `class IOScope`: `counter_` is modelled by `hasCounter`
(whether the pointer is non-null; the pointee's current value is an
argument of each operation), plus `label_`, `begin_`, `finished_` and
`last_`. -/
structure IOScope where
  hasCounter : Bool := false
  label : String := ""
  begin_ : Nat := 0
  finished : Bool := false
  last : IOBytesDelta := {}
deriving DecidableEq, Repr

/-- `IOScope::IOScope(uint64_t *counter, std::string label)`: stores the
pointer and label; under `CHEETAH_ENABLE_PERF`, if the pointer is
non-null, reads the counter once into `begin_` (otherwise `begin_`
keeps its default `0`).  `counterVal` is the pointee's current value.
Result: (constructed scope, number of counter reads). -/
def IOScope.construct (enabled : Bool) (hasCounter : Bool) (counterVal : Nat)
    (label : String) : IOScope × Nat :=
  if enabled && hasCounter then
    ({ hasCounter := hasCounter, label := label, begin_ := counterVal }, 1)
  else
    ({ hasCounter := hasCounter, label := label }, 0)

/-- `IOScope::finish()`: under `CHEETAH_ENABLE_PERF`, if already
finished return the cached `last_` (no read); otherwise build the delta
from `begin_` and `counter_ ? *counter_ : begin_` (one read iff the
pointer is non-null), cache it and mark finished.  In a disabled build,
mark finished and return a default `IOBytesDelta{}`.
Result: (updated scope, returned delta, number of counter reads). -/
def IOScope.finish (enabled : Bool) (s : IOScope) (counterVal : Nat) :
    IOScope × IOBytesDelta × Nat :=
  if enabled then
    if s.finished then (s, s.last, 0)
    else
      let d : IOBytesDelta := ⟨s.begin_, if s.hasCounter then counterVal else s.begin_⟩
      ({ s with finished := true, last := d }, d, if s.hasCounter then 1 else 0)
  else
    ({ s with finished := true }, {}, 0)

/-- `IOScope::~IOScope()`: under `CHEETAH_ENABLE_PERF`, if not finished
AND the pointer is non-null AND the label is non-empty, reads the
counter once, and writes `"[io] <label>: <bytes> B (<mib> MiB)\n"` to
`std::cerr` while holding `cout_mutex`.  `fmt` renders the `double`
produced by `mib()`.  Result: (writes, number of counter reads). -/
def IOScope.dtor (enabled : Bool) (fmt : ℚ → String) (s : IOScope)
    (counterVal : Nat) : List Write × Nat :=
  if enabled && !s.finished && s.hasCounter && !(s.label == "") then
    let d : IOBytesDelta := ⟨s.begin_, counterVal⟩
    ([⟨Stream.cerr, true,
        "[io] " ++ s.label ++ ": " ++ toString d.bytes ++ " B (" ++ fmt d.mib ++ " MiB)\n"⟩], 1)
  else ([], 0)

/-- State of `class MultiIOScope`: `reader_` is modelled by `hasReader`
(whether the `std::function` is non-empty; the value a call yields is
an argument of each operation). -/
structure MultiIOScope where
  hasReader : Bool := false
  label : String := ""
  begin_ : Nat := 0
  finished : Bool := false
  last : IOBytesDelta := {}
deriving DecidableEq, Repr

/-- `MultiIOScope::MultiIOScope(Reader reader, std::string label)`:
under `CHEETAH_ENABLE_PERF`, if the reader is non-empty, invokes it
once into `begin_`.  `readerVal` is the value that invocation yields.
Result: (constructed scope, number of reader invocations). -/
def MultiIOScope.construct (enabled : Bool) (hasReader : Bool) (readerVal : Nat)
    (label : String) : MultiIOScope × Nat :=
  if enabled && hasReader then
    ({ hasReader := hasReader, label := label, begin_ := readerVal }, 1)
  else
    ({ hasReader := hasReader, label := label }, 0)

/-- `MultiIOScope::finish()`: same shape as `IOScope::finish`, with
`reader_ ? reader_() : begin_` in place of the pointer dereference. -/
def MultiIOScope.finish (enabled : Bool) (s : MultiIOScope) (readerVal : Nat) :
    MultiIOScope × IOBytesDelta × Nat :=
  if enabled then
    if s.finished then (s, s.last, 0)
    else
      let d : IOBytesDelta := ⟨s.begin_, if s.hasReader then readerVal else s.begin_⟩
      ({ s with finished := true, last := d }, d, if s.hasReader then 1 else 0)
  else
    ({ s with finished := true }, {}, 0)

/-- `MultiIOScope::~MultiIOScope()`: same shape as `IOScope::~IOScope`,
invoking the reader once when it reports. -/
def MultiIOScope.dtor (enabled : Bool) (fmt : ℚ → String) (s : MultiIOScope)
    (readerVal : Nat) : List Write × Nat :=
  if enabled && !s.finished && s.hasReader && !(s.label == "") then
    let d : IOBytesDelta := ⟨s.begin_, readerVal⟩
    ([⟨Stream.cerr, true,
        "[io] " ++ s.label ++ ": " ++ toString d.bytes ++ " B (" ++ fmt d.mib ++ " MiB)\n"⟩], 1)
  else ([], 0)

/-- Left-justified `std::setw (w)` under `std::left`: pad `s` with
spaces on the right up to width `w`; never truncates. -/
def setwLeft (w : Nat) (s : String) : String :=
  s ++ String.mk (List.replicate (w - s.length) ' ')

/-- State of `struct ScopedTimer`: `label` is a `const char *`
(`none` models a null pointer), `t0` the start instant. -/
structure ScopedTimer where
  label : Option String := none
  t0 : ℚ := 0

/-- `ScopedTimer::ScopedTimer(const char *lbl)`: stores the pointer;
under `CHEETAH_ENABLE_PERF` reads the clock once into `t0` (otherwise
`t0` keeps its default).  Result: (timer, number of clock reads). -/
def ScopedTimer.construct (enabled : Bool) (lbl : Option String) (now : ℚ) :
    ScopedTimer × Nat :=
  if enabled then ({ label := lbl, t0 := now }, 1) else ({ label := lbl }, 0)

/-- `ScopedTimer::~ScopedTimer()`: under `CHEETAH_ENABLE_PERF`, while
holding `cout_mutex`, writes
`"  [time] " << left << setw(28) << (label ? label : "") << ms_since(t0) << " ms\n"`
to `std::cout`; the `ms_since` call inside reads the clock once.
Result: (writes, number of clock reads). -/
def ScopedTimer.dtor (enabled : Bool) (fmt : ℚ → String) (s : ScopedTimer)
    (now : ℚ) : List Write × Nat :=
  if enabled then
    ([⟨Stream.cout, true,
        "  [time] " ++ setwLeft 28 (s.label.getD "") ++
          fmt (ms_since enabled now s.t0).1 ++ " ms\n"⟩],
      (ms_since enabled now s.t0).2)
  else ([], 0)

/-- State of `struct StageTimer`: `prefix` (a Lean keyword-adjacent
name, hence `pfx`), `name` a `const char *` (`none` models null), `t0`
the start instant. -/
structure StageTimer where
  pfx : String := ""
  name : Option String := none
  t0 : ℚ := 0

/-- `StageTimer::StageTimer(const char *n, std::string pref)`: stores
prefix and name; under `CHEETAH_ENABLE_PERF` reads the clock once into
`t0` and, while holding `cout_mutex`, writes
`"\n" << prefix << (prefix.empty() ? "" : " ") << (name ? name : "") << "\n"`
to `std::cout`.  Result: (timer, writes, number of clock reads). -/
def StageTimer.construct (enabled : Bool) (n : Option String) (pref : String)
    (now : ℚ) : StageTimer × List Write × Nat :=
  if enabled then
    ({ pfx := pref, name := n, t0 := now },
      [⟨Stream.cout, true,
          "\n" ++ pref ++ (if pref == "" then "" else " ") ++ n.getD "" ++ "\n"⟩],
      1)
  else ({ pfx := pref, name := n }, [], 0)

/-- `StageTimer::done() const`: under `CHEETAH_ENABLE_PERF`, while
holding `cout_mutex`, writes
`"  [time] " << left << setw(28) << "TOTAL" << ms_since(t0) << " ms\n"`
to `std::cout`; `ms_since` reads the clock once.  The method is `const`:
it cannot change the timer's state, so the model returns only the
observable effects.  Result: (writes, number of clock reads). -/
def StageTimer.done (enabled : Bool) (fmt : ℚ → String) (s : StageTimer)
    (now : ℚ) : List Write × Nat :=
  if enabled then
    ([⟨Stream.cout, true,
        "  [time] " ++ setwLeft 28 "TOTAL" ++ fmt (ms_since enabled now s.t0).1 ++ " ms\n"⟩],
      (ms_since enabled now s.t0).2)
  else ([], 0)

/-- `StageTimer` declares no destructor: the implicitly generated one
destroys the `std::string` member and performs no console write and no
clock read, in enabled and disabled builds alike. -/
def StageTimer.dtor (_enabled : Bool) (_s : StageTimer) : List Write × Nat :=
  ([], 0)

end GeminiPerf

namespace GeminiPerf

/-- A basic sanity example used below: truncation keeps values below the
modulus. -/
theorem u64_lt (n : Nat) : u64 n < u64Mod := by
  have h : 0 < u64Mod := by decide
  exact Nat.mod_lt _ h

/-- C4: for every snapshot pair, `IOBytesDelta::bytes()` is exactly the
unsigned wraparound difference `end - begin (mod 2^64)` — a value in
`[0, 2^64)`, never negative, with no exception or clamping — and
`mib()` equals `bytes()` divided by `1048576`. -/
theorem iobytesdelta_bytes_wraparound_and_mib (b e : Nat) :
    (IOBytesDelta.bytes ⟨b, e⟩ : Int) = ((e : Int) - (b : Int)) % (2 ^ 64 : Int) ∧
    IOBytesDelta.bytes ⟨b, e⟩ < 2 ^ 64 ∧
    IOBytesDelta.mib ⟨b, e⟩ = (IOBytesDelta.bytes ⟨b, e⟩ : ℚ) / 1048576 := by
  refine ⟨?_, ?_, ?_⟩
  · have hb : b % u64Mod < u64Mod := u64_lt b
    have he : e % u64Mod < u64Mod := u64_lt e
    simp only [IOBytesDelta.bytes, u64, u64Mod] at *
    omega
  · have := u64_lt (u64 e + u64Mod - u64 b)
    simp only [IOBytesDelta.bytes, u64, u64Mod] at *
    omega
  · simp only [IOBytesDelta.mib, div_div]
    norm_num

/-- Helper: a delta whose two snapshots coincide has zero bytes. -/
theorem IOBytesDelta.bytes_same (b : Nat) : IOBytesDelta.bytes ⟨b, b⟩ = 0 := by
  have h : b % u64Mod < u64Mod := u64_lt b
  simp only [IOBytesDelta.bytes, u64, u64Mod] at *
  omega

/-- C1: for both I/O scope variants in an enabled build, the first
`finish()` returns the delta built from the begin-snapshot and the
current counter/reader value, caches it in `last_` and sets
`finished_`; every later `finish()` returns that exact cached delta
with zero reads (independently of the counter's new value), and the
total number of source reads over construction, both `finish()` calls
and the destructor is at most 2. -/
theorem io_scope_finish_idempotent_cached (hc : Bool) (v0 : Nat) (lbl : String)
    (v1 v2 : Nat) (fmt : ℚ → String) :
    (let c := IOScope.construct true hc v0 lbl
     let f1 := IOScope.finish true c.1 v1
     f1.2.1 = ⟨c.1.begin_, if hc then v1 else c.1.begin_⟩ ∧
     f1.1.finished = true ∧
     f1.1.last = f1.2.1 ∧
     (∀ v, IOScope.finish true f1.1 v = (f1.1, f1.2.1, 0)) ∧
     c.2 + f1.2.2 + (IOScope.finish true f1.1 v2).2.2 +
       (IOScope.dtor true fmt f1.1 v2).2 ≤ 2) ∧
    (let c := MultiIOScope.construct true hc v0 lbl
     let f1 := MultiIOScope.finish true c.1 v1
     f1.2.1 = ⟨c.1.begin_, if hc then v1 else c.1.begin_⟩ ∧
     f1.1.finished = true ∧
     f1.1.last = f1.2.1 ∧
     (∀ v, MultiIOScope.finish true f1.1 v = (f1.1, f1.2.1, 0)) ∧
     c.2 + f1.2.2 + (MultiIOScope.finish true f1.1 v2).2.2 +
       (MultiIOScope.dtor true fmt f1.1 v2).2 ≤ 2) := by
  cases hc <;>
    simp [IOScope.construct, IOScope.finish, IOScope.dtor,
      MultiIOScope.construct, MultiIOScope.finish, MultiIOScope.dtor]

/-- C2: for both I/O scope variants in an enabled build, the destructor
emits nothing after any `finish()` call; it emits nothing when the
label is empty, whatever else holds; and in general it reports exactly
when the scope is unfinished, the counter/reader is present and the
label is non-empty. -/
theorem io_scope_dtor_no_double_report (fmt : ℚ → String) (s : IOScope)
    (m : MultiIOScope) (vf v : Nat) :
    (IOScope.dtor true fmt (IOScope.finish true s vf).1 v = ([], 0)) ∧
    (s.label = "" → IOScope.dtor true fmt s v = ([], 0)) ∧
    ((IOScope.dtor true fmt s v).1 ≠ [] ↔
      s.finished = false ∧ s.hasCounter = true ∧ s.label ≠ "") ∧
    (MultiIOScope.dtor true fmt (MultiIOScope.finish true m vf).1 v = ([], 0)) ∧
    (m.label = "" → MultiIOScope.dtor true fmt m v = ([], 0)) ∧
    ((MultiIOScope.dtor true fmt m v).1 ≠ [] ↔
      m.finished = false ∧ m.hasReader = true ∧ m.label ≠ "") := by
  refine ⟨?_, ?_, ?_, ?_, ?_, ?_⟩
  · rcases s with ⟨hc, lbl, b, fin, last⟩
    cases fin <;> simp [IOScope.finish, IOScope.dtor]
  · intro h
    simp [IOScope.dtor, h]
  · rcases s with ⟨hc, lbl, b, fin, last⟩
    cases fin <;> cases hc <;>
      by_cases hl : lbl = "" <;> simp [IOScope.dtor, hl]
  · rcases m with ⟨hr, lbl, b, fin, last⟩
    cases fin <;> simp [MultiIOScope.finish, MultiIOScope.dtor]
  · intro h
    simp [MultiIOScope.dtor, h]
  · rcases m with ⟨hr, lbl, b, fin, last⟩
    cases fin <;> cases hr <;>
      by_cases hl : lbl = "" <;> simp [MultiIOScope.dtor, hl]

/-- C2 witness: concrete instantiation — a finished scope's destructor
and an empty-labelled scope's destructor are silent, and the report
condition characterisation holds at a concrete unfinished scope. -/
theorem io_scope_dtor_no_double_report_witness :
    (IOScope.dtor true (fun _ => "") ⟨true, "", 5, false, {}⟩ 9 = ([], 0)) ∧
    ((IOScope.dtor true (fun _ => "")
        ⟨true, "x", 5, false, {}⟩ 9).1 ≠ [] ↔
      (false : Bool) = false ∧ (true : Bool) = true ∧ ("x" : String) ≠ "") ∧
    (MultiIOScope.dtor true (fun _ => "") ⟨true, "", 5, false, {}⟩ 9 = ([], 0)) := by
  have h1 := io_scope_dtor_no_double_report (fun _ => "")
    ⟨true, "", 5, false, {}⟩ ⟨true, "", 5, false, {}⟩ 7 9
  have h2 := io_scope_dtor_no_double_report (fun _ => "")
    ⟨true, "x", 5, false, {}⟩ ⟨true, "x", 5, false, {}⟩ 7 9
  exact ⟨h1.2.1 rfl, h2.2.2.1, h1.2.2.2.2.1 rfl⟩

/-- C3: both I/O scope variants constructed with a null counter / empty
reader are no-ops: the begin-snapshot is 0, construction reads nothing,
`finish()` reads nothing and returns a delta whose end equals its begin
(zero bytes), and the destructor reads nothing and never reports. -/
theorem io_scope_null_source_noop (v0 : Nat) (lbl : String) (v1 v : Nat)
    (fmt : ℚ → String) :
    (let c := IOScope.construct true false v0 lbl
     let f := IOScope.finish true c.1 v1
     c.2 = 0 ∧ c.1.begin_ = 0 ∧
     f.2.2 = 0 ∧ f.2.1.end_ = f.2.1.begin_ ∧ f.2.1.bytes = 0 ∧
     IOScope.dtor true fmt c.1 v = ([], 0) ∧
     IOScope.dtor true fmt f.1 v = ([], 0)) ∧
    (let c := MultiIOScope.construct true false v0 lbl
     let f := MultiIOScope.finish true c.1 v1
     c.2 = 0 ∧ c.1.begin_ = 0 ∧
     f.2.2 = 0 ∧ f.2.1.end_ = f.2.1.begin_ ∧ f.2.1.bytes = 0 ∧
     MultiIOScope.dtor true fmt c.1 v = ([], 0) ∧
     MultiIOScope.dtor true fmt f.1 v = ([], 0)) := by
  constructor <;>
    simp [IOScope.construct, IOScope.finish, IOScope.dtor,
      MultiIOScope.construct, MultiIOScope.finish, MultiIOScope.dtor,
      IOBytesDelta.bytes_same]

/-- C5: with `CHEETAH_ENABLE_PERF` compiled out, `ms_since` returns
`0.0` with zero clock reads, `print_line` writes nothing, constructing
and destroying every scope type performs zero console writes, zero
clock reads and zero counter/reader reads, and `finish()` / `done()`
return zero-valued results. -/
theorem disabled_build_noop (now start : ℚ) (txt : String) (hc : Bool)
    (v0 v : Nat) (lbl : String) (fmt : ℚ → String) (sc : IOScope)
    (mc : MultiIOScope) (olbl : Option String) (st : ScopedTimer)
    (pref : String) (g : StageTimer) :
    ms_since false now start = (0, 0) ∧
    print_line false txt = [] ∧
    (IOScope.construct false hc v0 lbl).2 = 0 ∧
    (IOScope.finish false sc v).2 = ({ begin_ := 0, end_ := 0 }, 0) ∧
    IOScope.dtor false fmt sc v = ([], 0) ∧
    (MultiIOScope.construct false hc v0 lbl).2 = 0 ∧
    (MultiIOScope.finish false mc v).2 = ({ begin_ := 0, end_ := 0 }, 0) ∧
    MultiIOScope.dtor false fmt mc v = ([], 0) ∧
    (ScopedTimer.construct false olbl now).2 = 0 ∧
    ScopedTimer.dtor false fmt st now = ([], 0) ∧
    (StageTimer.construct false olbl pref now).2 = ([], 0) ∧
    StageTimer.done false fmt g now = ([], 0) ∧
    StageTimer.dtor false g = ([], 0) := by
  simp [ms_since, print_line, IOScope.construct, IOScope.finish, IOScope.dtor,
    MultiIOScope.construct, MultiIOScope.finish, MultiIOScope.dtor,
    ScopedTimer.construct, ScopedTimer.dtor, StageTimer.construct,
    StageTimer.done, StageTimer.dtor]

/-- C6: a `StageTimer`'s `done()` may be called any number of times; on
every call it reads the clock once and emits one fresh TOTAL line whose
elapsed time is measured from the original construction instant
`t0` (no caching — the output tracks each call's own `now`), and the
(implicit) destructor prints nothing, so a timer destroyed without
`done()` produces no total line. -/
theorem stage_timer_done_repeatable (fmt : ℚ → String) (s : StageTimer)
    (nows : List ℚ) :
    nows.map (fun now => StageTimer.done true fmt s now) =
      nows.map (fun now =>
        ([⟨Stream.cout, true,
            "  [time] " ++ setwLeft 28 "TOTAL" ++ fmt (now - s.t0) ++ " ms\n"⟩], 1)) ∧
    StageTimer.dtor true s = ([], 0) ∧
    StageTimer.dtor false s = ([], 0) := by
  refine ⟨?_, rfl, rfl⟩
  simp [StageTimer.done, ms_since]

/-- C10: a `ScopedTimer` whose `label` pointer is null and a
`StageTimer` whose `name` pointer is null never dereference it: their
behaviour is exactly that of the same timer carrying an empty string,
and the report/header line is emitted with `""` substituted. -/
theorem null_label_uses_empty_string (enabled : Bool) (fmt : ℚ → String)
    (t0 now : ℚ) (pref : String) :
    ScopedTimer.dtor enabled fmt { label := none, t0 := t0 } now =
      ScopedTimer.dtor enabled fmt { label := some "", t0 := t0 } now ∧
    (ScopedTimer.dtor true fmt { label := none, t0 := t0 } now).1.map Write.text =
      ["  [time] " ++ setwLeft 28 "" ++ fmt (now - t0) ++ " ms\n"] ∧
    (StageTimer.construct enabled none pref now).2 =
      (StageTimer.construct enabled (some "") pref now).2 ∧
    (StageTimer.construct true none pref now).2.1.map Write.text =
      ["\n" ++ pref ++ (if pref == "" then "" else " ") ++ "" ++ "\n"] := by
  refine ⟨rfl, ?_, ?_, ?_⟩
  · simp [ScopedTimer.dtor, ms_since]
  · cases enabled <;> simp [StageTimer.construct]
  · simp [StageTimer.construct]

/-- C7 counterexample: the writes do NOT all target one shared console
stream.  A concrete unfinished, labelled `IOScope`'s destructor report
goes to `std::cerr` while a concrete `StageTimer` header goes to
`std::cout`, so no single stream receives every write. -/
theorem console_single_stream_cex :
    ¬ ∃ st : Stream,
      (((IOScope.dtor true (fun _ => "") ⟨true, "x", 0, false, {}⟩ 5).1 ++
          (StageTimer.construct true (some "n") "" 0).2.1).all
        (fun w => w.stream == st)) = true := by
  rintro ⟨st, h⟩
  cases st <;> simp [IOScope.dtor, StageTimer.construct] at h

/-- C7 amended: every console write any operation of this header
performs happens while holding the single process-wide `cout_mutex`
lock; the writes target one of two console streams — `std::cout` for
`print_line` and the timers, `std::cerr` for the I/O scopes' implicit
destructor reports. -/
theorem console_writes_all_locked (enabled : Bool) (txt : String)
    (fmt : ℚ → String) (s : IOScope) (m : MultiIOScope) (v : Nat)
    (st : ScopedTimer) (g : StageTimer) (n : Option String) (pref : String)
    (now : ℚ) :
    ((print_line enabled txt).all
        (fun w => w.locked && (w.stream == Stream.cout))) = true ∧
    (((IOScope.dtor enabled fmt s v).1).all
        (fun w => w.locked && (w.stream == Stream.cerr))) = true ∧
    (((MultiIOScope.dtor enabled fmt m v).1).all
        (fun w => w.locked && (w.stream == Stream.cerr))) = true ∧
    (((ScopedTimer.dtor enabled fmt st now).1).all
        (fun w => w.locked && (w.stream == Stream.cout))) = true ∧
    (((StageTimer.construct enabled n pref now).2.1).all
        (fun w => w.locked && (w.stream == Stream.cout))) = true ∧
    (((StageTimer.done enabled fmt g now).1).all
        (fun w => w.locked && (w.stream == Stream.cout))) = true ∧
    (((StageTimer.dtor enabled g).1).all
        (fun w => w.locked && (w.stream == Stream.cout))) = true := by
  refine ⟨?_, ?_, ?_, ?_, ?_, ?_, rfl⟩ <;>
    · simp only [print_line, IOScope.dtor, MultiIOScope.dtor, ScopedTimer.dtor,
        StageTimer.construct, StageTimer.done]
      split <;> simp

/-- C8 counterexample: the claimed total-line template carries six
extra spaces between the width-28 `TOTAL` field and the milliseconds
figure; the line actually emitted by `done()` has none, so at a
concrete timer and formatter the emitted text differs from the claimed
template. -/
theorem stage_total_line_cex :
    (StageTimer.done true (fun _ => "7")
        { pfx := "", name := some "x", t0 := 0 } 1).1.map Write.text ≠
      ["  [time] " ++ setwLeft 28 "TOTAL" ++ "      " ++ "7" ++ " ms\n"] := by
  decide

/-- C8 amended: in an enabled build each `done()` call emits exactly
one line, `"  [time] TOTAL"` followed by 23 spaces (the `TOTAL` field
left-justified to width 28) followed immediately — no further
separator — by the milliseconds figure and `" ms\n"`, written to
`std::cout` under the lock with one clock read. -/
theorem stage_total_line_format (fmt : ℚ → String) (s : StageTimer) (now : ℚ) :
    StageTimer.done true fmt s now =
      ([⟨Stream.cout, true,
          "  [time] TOTAL" ++ String.mk (List.replicate 23 ' ') ++
            fmt (now - s.t0) ++ " ms\n"⟩], 1) := by
  have h : "  [time] " ++ setwLeft 28 "TOTAL" =
      "  [time] TOTAL" ++ String.mk (List.replicate 23 ' ') := by decide
  simp [StageTimer.done, ms_since, h]

/-- C9 counterexample: the claimed report template carries a separator
space between the width-28 label field and the milliseconds figure; the
line the destructor actually emits has none, so at a concrete timer and
formatter the emitted text differs from the claimed template. -/
theorem scoped_timer_line_cex :
    (ScopedTimer.dtor true (fun _ => "7")
        { label := some "x", t0 := 0 } 1).1.map Write.text ≠
      ["  [time] " ++ setwLeft 28 "x" ++ " " ++ "7" ++ " ms\n"] := by
  decide

/-- C9 amended: in an enabled build every `ScopedTimer` destructor
unconditionally emits exactly one line (no idempotence tracking):
`"  [time] "`, the label (empty for a null pointer) left-justified to
minimum width 28, then immediately — no separator space — the
milliseconds figure and `" ms\n"`, written to `std::cout` under the
lock with one clock read. -/
theorem scoped_timer_dtor_format (fmt : ℚ → String) (s : ScopedTimer)
    (now : ℚ) :
    ScopedTimer.dtor true fmt s now =
      ([⟨Stream.cout, true,
          "  [time] " ++
            (s.label.getD "" ++
              String.mk (List.replicate (28 - (s.label.getD "").length) ' ')) ++
            fmt (now - s.t0) ++ " ms\n"⟩], 1) := by
  simp [ScopedTimer.dtor, ms_since, setwLeft]

end GeminiPerf
